import Mathlib

/-
Verification of the rl-swarm modal-login server code: the peer-registration
POST route handler and the createSignerForUser helper.

The handler is embedded as a pure function of an environment record that
carries the parsed request body, the results of the database lookups
(getUser, getLatestApiKey), the environment variables the handler reads,
and the results (value or thrown error) of each external SDK call.  The
handler also emits a trace of the external calls it makes, in order, which
lets us state which calls are performed, with which arguments, and in
which order.
-/

set_option maxHeartbeats 1000000

namespace Gensyn

/-- A user record as returned by the store lookup getUser; only the
address field is read by the code under verification. -/
structure UserData where
  address : String
deriving DecidableEq

/-- An API key record as returned by getLatestApiKey.  The
deferredActionDigest field may be absent (none); the handler treats an
absent or empty digest as missing, mirroring the JS truthiness check. -/
structure ApiKeyData where
  deferredActionDigest : Option String
deriving DecidableEq

/-- The parsed JSON request body. -/
structure Body where
  orgId : String
  peerId : String
deriving DecidableEq

/-- The shape of a thrown SDK error as far as the handler inspects it:
its name, its details string, and its metaMessages. -/
structure ErrObj where
  name : String
  details : String
  metaMessages : List String
deriving DecidableEq

/-- The account returned by createModularAccountV2; only its address is
read afterwards (by createAlchemySmartAccountClient). -/
structure Account where
  address : String
deriving DecidableEq

/-- The successful result of parsing an HttpRequestError details string
with the zod schema: the nested data.data.revertData field. -/
structure ParsedDetails where
  revertData : String
deriving DecidableEq

/-- The result of viem decodeErrorResult; the handler only reads the
errorName field. -/
structure DecodedError where
  errorName : String
deriving DecidableEq

/-- The JSON body of a response produced by the handler.  Each
constructor records exactly the fields the corresponding NextResponse
literal carries (the opaque zod parseError object of the schema-failure
response is not modelled beyond its presence). -/
inductive RespBody where
  | hashBody (hash : String)
  | errBody (error : String)
  | errOriginalBody (error : String) (original : ErrObj)
  | errParseBody (error : String) (original : String)
  | errMetaBody (error : String) (metaMessages : List String)
deriving DecidableEq

/-- True when the response body carries an error field, i.e. it is any
body other than the success body. -/
def RespBody.hasErrorField : RespBody → Bool
  | RespBody.hashBody _ => false
  | _ => true

/-- An HTTP response: status code and JSON body. -/
structure Response where
  status : Nat
  body : RespBody
deriving DecidableEq

/-- One external call made by the handler, with the arguments the handler
passes to it. -/
inductive Event where
  | getUserEv (orgId : String)
  | getApiKeyEv (orgId : String)
  | alchemyEv (apiKey : String)
  | createWalletClientEv (address : String)
  | createModularAccountEv (digest : String)
  | createSmartAccountClientEv (accountAddress : String) (policyId : String)
  | encodeEv (functionName : String) (args : List String)
  | sendUserOpEv (target : String) (data : String)
  | decodeErrorEv (revertData : String)
deriving DecidableEq

/-- The environment of one invocation of the handler: the request body
parse result (none when the body is not valid JSON), the store, the
environment variables, and the behaviour of every external call.
The safeParse field is modelled from the spec: the zod schema
httpRequestErroDetailsStringSchema lives in app/lib/HttpRequestError,
which is not among the given sources; per the spec it either extracts a
revertData field from the details string or fails. -/
structure Env where
  parseResult : Option Body
  getUser : String → Option UserData
  getLatestApiKey : String → Option ApiKeyData
  alchemyApiKey : String
  paymasterPolicyId : String
  smartContractAddress : String
  createModularAccountV2 : Except ErrObj Account
  sendUserOperation : Except ErrObj String
  encodeFunctionData : String → List String → String
  safeParse : String → Option ParsedDetails
  decodeErrorResult : String → DecodedError

/-- Outcome of the try block: either an early or final response, or a
thrown error that the catch block will handle. -/
inductive TryOutcome where
  | resp (r : Response)
  | thrown (e : ErrObj)
deriving DecidableEq

/-- The SDK-call sequence of the try block once the user and a usable
api key digest have been found: create transport, create wallet client,
create modular account (may throw), create smart account client, encode
the registerPeer calldata, send the user operation (may throw). -/
def sdkSteps (env : Env) (b : Body) (user : UserData) (digest : String) :
    TryOutcome × List Event :=
  match env.createModularAccountV2 with
  | Except.error e =>
    (TryOutcome.thrown e,
      [Event.getUserEv b.orgId, Event.getApiKeyEv b.orgId,
       Event.alchemyEv env.alchemyApiKey,
       Event.createWalletClientEv user.address,
       Event.createModularAccountEv digest])
  | Except.ok account =>
    match env.sendUserOperation with
    | Except.error e =>
      (TryOutcome.thrown e,
        [Event.getUserEv b.orgId, Event.getApiKeyEv b.orgId,
         Event.alchemyEv env.alchemyApiKey,
         Event.createWalletClientEv user.address,
         Event.createModularAccountEv digest,
         Event.createSmartAccountClientEv account.address env.paymasterPolicyId,
         Event.encodeEv ("registerPeer") [b.peerId],
         Event.sendUserOpEv env.smartContractAddress
           (env.encodeFunctionData ("registerPeer") [b.peerId])])
    | Except.ok hash =>
      (TryOutcome.resp (Response.mk 200 (RespBody.hashBody hash)),
        [Event.getUserEv b.orgId, Event.getApiKeyEv b.orgId,
         Event.alchemyEv env.alchemyApiKey,
         Event.createWalletClientEv user.address,
         Event.createModularAccountEv digest,
         Event.createSmartAccountClientEv account.address env.paymasterPolicyId,
         Event.encodeEv ("registerPeer") [b.peerId],
         Event.sendUserOpEv env.smartContractAddress
           (env.encodeFunctionData ("registerPeer") [b.peerId])])

/-- The try block of the handler: look up the user (404 if absent), look
up the latest api key (500 if absent or its digest falsy), then run the
SDK-call sequence. -/
def tryBlock (env : Env) (b : Body) : TryOutcome × List Event :=
  match env.getUser b.orgId with
  | none =>
    (TryOutcome.resp (Response.mk 404 (RespBody.errBody ("user not found"))),
      [Event.getUserEv b.orgId])
  | some user =>
    match env.getLatestApiKey b.orgId with
    | none =>
      (TryOutcome.resp (Response.mk 500 (RespBody.errBody ("api key not found"))),
        [Event.getUserEv b.orgId, Event.getApiKeyEv b.orgId])
    | some apiKey =>
      match apiKey.deferredActionDigest with
      | none =>
        (TryOutcome.resp (Response.mk 500 (RespBody.errBody ("api key not found"))),
          [Event.getUserEv b.orgId, Event.getApiKeyEv b.orgId])
      | some digest =>
        if digest == "" then
          (TryOutcome.resp (Response.mk 500 (RespBody.errBody ("api key not found"))),
            [Event.getUserEv b.orgId, Event.getApiKeyEv b.orgId])
        else
          sdkSteps env b user digest

/-- The catch block of the handler: a non-HttpRequestError gives a
generic 500 carrying the original error; otherwise the details string is
run through the zod schema, a parse failure gives a 500, and a parse
success decodes the revertData against the contract ABI and gives a 400
with the decoded error name and the metaMessages. -/
def catchBlock (env : Env) (error : ErrObj) : Response × List Event :=
  if error.name != ("HttpRequestError") then
    (Response.mk 500
      (RespBody.errOriginalBody ("An unexpected error occurred") error), [])
  else
    match env.safeParse error.details with
    | none =>
      (Response.mk 500
        (RespBody.errParseBody
          ("An unexpected error occurred getting request details")
          error.details), [])
    | some parsed =>
      (Response.mk 400
        (RespBody.errMetaBody
          ((env.decodeErrorResult parsed.revertData).errorName)
          error.metaMessages),
        [Event.decodeErrorEv parsed.revertData])

/-- Try block followed by the catch handler for thrown errors. -/
def afterCheck (env : Env) (b : Body) : Response × List Event :=
  match tryBlock env b with
  | (TryOutcome.resp r, tr) => (r, tr)
  | (TryOutcome.thrown e, tr) =>
    ((catchBlock env e).1, tr ++ (catchBlock env e).2)

/-- The value of the body variable after the awaited json() call: the
parsed body on success, or, on a JSON parse failure, the 400 response
that the catch callback builds and returns (it is assigned to the
variable, not sent). -/
def parseBodyVar (env : Env) : Sum Body Response :=
  match env.parseResult with
  | some b => Sum.inl b
  | none => Sum.inr (Response.mk 400 (RespBody.errBody ("bad request")))

/-- The POST handler.  When the body variable holds the catch-produced
response object instead of a parsed body, its orgId property is absent
and therefore falsy, so the missing-orgId check fires and sends the 400;
the response built inside the json catch callback itself is discarded. -/
def POST (env : Env) : Response × List Event :=
  match parseBodyVar env with
  | Sum.inr _ =>
    (Response.mk 400 (RespBody.errBody ("bad request")), [])
  | Sum.inl b =>
    if b.orgId == "" then
      (Response.mk 400 (RespBody.errBody ("bad request")), [])
    else
      afterCheck env b

/-- The chain object passed to createWalletClient; its contents are not
inspected by the code under verification, so it is opaque here. -/
def gensynTestnet : String := "gensynTestnet"

/-- The configuration record passed to viem toAccount: an address and
three signing callbacks, each of which may reject with an error. -/
structure AccountConfig where
  address : String
  signMessage : String → Except ErrObj String
  signTransaction : String → Except ErrObj String
  signTypedData : String → Except ErrObj String

/-- Viem toAccount builds a local account from the given source; the
fields the code under verification relies on (the address and the three
signing callbacks) pass through unchanged. -/
def toAccount (source : AccountConfig) : AccountConfig := source

/-- A viem wallet client as far as this code observes it: the account it
wraps and the chain it was created for. -/
structure WalletClient where
  account : AccountConfig
  chain : String

/-- Viem createWalletClient wraps the account and chain. -/
def createWalletClient (account : AccountConfig) (chain : String) :
    WalletClient :=
  WalletClient.mk account chain

/-- An aa-sdk WalletClientSigner: it wraps a wallet client together with
a signer-type tag, and delegates address and signing to the wrapped
client's account. -/
structure WalletClientSigner where
  client : WalletClient
  signerType : String

/-- The address a WalletClientSigner reports: the wrapped account's. -/
def WalletClientSigner.getAddress (s : WalletClientSigner) : String :=
  s.client.account.address

/-- Signing a message via the signer delegates to the account callback. -/
def WalletClientSigner.signMessage (s : WalletClientSigner) (m : String) :
    Except ErrObj String :=
  s.client.account.signMessage m

/-- Signing a transaction via the signer delegates to the account
callback. -/
def WalletClientSigner.signTransaction (s : WalletClientSigner) (t : String) :
    Except ErrObj String :=
  s.client.account.signTransaction t

/-- Signing typed data via the signer delegates to the account
callback. -/
def WalletClientSigner.signTypedData (s : WalletClientSigner) (d : String) :
    Except ErrObj String :=
  s.client.account.signTypedData d

/-- A thrown JS Error with the given message, seen through the ErrObj
shape. -/
def jsError (message : String) : ErrObj :=
  ErrObj.mk message ("") []

/-- createSignerForUser from app/lib/createSignerForUser.ts: build a
toAccount whose address is the user's and whose three signing callbacks
all throw Error Not implemented, wrap it in a wallet client on the
gensyn testnet, and wrap that in a WalletClientSigner tagged custom. -/
def createSignerForUser (user : UserData) : WalletClientSigner :=
  let signerAccount := toAccount
    (AccountConfig.mk user.address
      (fun _ => Except.error (jsError ("Not implemented")))
      (fun _ => Except.error (jsError ("Not implemented")))
      (fun _ => Except.error (jsError ("Not implemented"))))
  let walletClient := createWalletClient signerAccount gensynTestnet
  WalletClientSigner.mk walletClient ("custom")

/-- A sample parsed request body used to instantiate the theorems. -/
def sampleBody : Body := Body.mk ("org1") ("peer1")

/-- A sample stored user. -/
def sampleUser : UserData := UserData.mk ("0xabc")

/-- A sample stored api key with a usable digest. -/
def sampleKey : ApiKeyData := ApiKeyData.mk (some ("0xdigest"))

/-- A sample thrown error that is not an HttpRequestError. -/
def eOther : ErrObj := ErrObj.mk ("TypeError") ("boom") []

/-- A sample HttpRequestError whose details string the schema accepts. -/
def eHttp : ErrObj := ErrObj.mk ("HttpRequestError") ("d1") [("meta1")]

/-- A sample HttpRequestError whose details string the schema rejects. -/
def eHttpBad : ErrObj := ErrObj.mk ("HttpRequestError") ("nope") []

/-- A sample environment on which every step succeeds. -/
def envOk : Env :=
  Env.mk (some sampleBody)
    (fun o => if o == ("org1") then some sampleUser else none)
    (fun o => if o == ("org1") then some sampleKey else none)
    ("alchKey") ("policy1") ("0xcontract")
    (Except.ok (Account.mk ("0xacct")))
    (Except.ok ("0xhash"))
    (fun f a => String.join (f :: a))
    (fun s => if s == ("d1") then some (ParsedDetails.mk ("0xdead")) else none)
    (fun s => DecodedError.mk (String.append ("decoded:") s))

/-- The same environment as envOk with every field eta-expanded, so the
two records are pointwise equal observations written differently. -/
def envOk2 : Env :=
  Env.mk (some sampleBody)
    (fun o => envOk.getUser o)
    (fun o => envOk.getLatestApiKey o)
    (envOk.alchemyApiKey) (envOk.paymasterPolicyId) (envOk.smartContractAddress)
    (envOk.createModularAccountV2)
    (envOk.sendUserOperation)
    (fun f a => envOk.encodeFunctionData f a)
    (fun s => envOk.safeParse s)
    (fun s => envOk.decodeErrorResult s)

/-- envOk except that createModularAccountV2 throws a non-HTTP error. -/
def envThrow : Env :=
  Env.mk (some sampleBody)
    (fun o => if o == ("org1") then some sampleUser else none)
    (fun o => if o == ("org1") then some sampleKey else none)
    ("alchKey") ("policy1") ("0xcontract")
    (Except.error eOther)
    (Except.ok ("0xhash"))
    (fun f a => String.join (f :: a))
    (fun s => if s == ("d1") then some (ParsedDetails.mk ("0xdead")) else none)
    (fun s => DecodedError.mk (String.append ("decoded:") s))

/-- envOk except that createModularAccountV2 throws an HttpRequestError
whose details string the schema accepts. -/
def envThrowHttp : Env :=
  Env.mk (some sampleBody)
    (fun o => if o == ("org1") then some sampleUser else none)
    (fun o => if o == ("org1") then some sampleKey else none)
    ("alchKey") ("policy1") ("0xcontract")
    (Except.error eHttp)
    (Except.ok ("0xhash"))
    (fun f a => String.join (f :: a))
    (fun s => if s == ("d1") then some (ParsedDetails.mk ("0xdead")) else none)
    (fun s => DecodedError.mk (String.append ("decoded:") s))

/-- envOk except that the store has no user for any organisation. -/
def envNoUser : Env :=
  Env.mk (some sampleBody)
    (fun _ => none)
    (fun o => if o == ("org1") then some sampleKey else none)
    ("alchKey") ("policy1") ("0xcontract")
    (Except.ok (Account.mk ("0xacct")))
    (Except.ok ("0xhash"))
    (fun f a => String.join (f :: a))
    (fun s => if s == ("d1") then some (ParsedDetails.mk ("0xdead")) else none)
    (fun s => DecodedError.mk (String.append ("decoded:") s))

/-- envOk except that the request body has an empty orgId. -/
def envEmptyOrg : Env :=
  Env.mk (some (Body.mk ("") ("peer1")))
    (fun o => if o == ("org1") then some sampleUser else none)
    (fun o => if o == ("org1") then some sampleKey else none)
    ("alchKey") ("policy1") ("0xcontract")
    (Except.ok (Account.mk ("0xacct")))
    (Except.ok ("0xhash"))
    (fun f a => String.join (f :: a))
    (fun s => if s == ("d1") then some (ParsedDetails.mk ("0xdead")) else none)
    (fun s => DecodedError.mk (String.append ("decoded:") s))

/-- envOk except that the request body is not valid JSON. -/
def envBadJson : Env :=
  Env.mk none
    (fun o => if o == ("org1") then some sampleUser else none)
    (fun o => if o == ("org1") then some sampleKey else none)
    ("alchKey") ("policy1") ("0xcontract")
    (Except.ok (Account.mk ("0xacct")))
    (Except.ok ("0xhash"))
    (fun f a => String.join (f :: a))
    (fun s => if s == ("d1") then some (ParsedDetails.mk ("0xdead")) else none)
    (fun s => DecodedError.mk (String.append ("decoded:") s))

/-- When the body parses and its orgId is nonempty, the handler runs the
try block with the catch handler. -/
theorem POST_eq_afterCheck (env : Env) (b : Body)
    (hp : env.parseResult = some b) (hb : (b.orgId == "") = false) :
    POST env = afterCheck env b := by
  unfold POST parseBodyVar
  rw [hp]
  simp [hb]

/-- The trace of the try block never contains a decode event: revert
reasons are decoded only in the catch handler. -/
theorem tryBlock_trace_no_decode (env : Env) (b : Body) (rd : String) :
    Event.decodeErrorEv rd ∉ (tryBlock env b).2 := by
  unfold tryBlock sdkSteps
  repeat' split
  all_goals simp

/-- C9: when the request body is not valid JSON, the handler still
returns status 400 with the bad request error body and performs no
external call; the response built in the JSON-parse catch callback is
only assigned to the body variable, and the 400 actually sent comes from
the missing-orgId check, which that value always fails. -/
theorem c9_invalid_json_gives_bad_request (env : Env)
    (hp : env.parseResult = none) :
    POST env = (Response.mk 400 (RespBody.errBody ("bad request")), []) := by
  unfold POST parseBodyVar
  rw [hp]

/-- C9 witness: the invalid-JSON environment gets the 400 response. -/
theorem c9_witness :
    POST envBadJson
      = (Response.mk 400 (RespBody.errBody ("bad request")), []) :=
  c9_invalid_json_gives_bad_request envBadJson rfl

/-- C5: when the request body parses but its orgId is empty (falsy), the
handler returns status 400 with the bad request error body, with no
store lookup or SDK call made (the event trace is empty). -/
theorem c5_falsy_orgid_bad_request (env : Env) (b : Body)
    (hp : env.parseResult = some b) (hb : b.orgId = "") :
    POST env = (Response.mk 400 (RespBody.errBody ("bad request")), []) := by
  unfold POST parseBodyVar
  rw [hp]
  simp [hb]

/-- C5 witness: the empty-orgId environment gets the 400 response with
an empty trace. -/
theorem c5_witness :
    POST envEmptyOrg
      = (Response.mk 400 (RespBody.errBody ("bad request")), []) :=
  c5_falsy_orgid_bad_request envEmptyOrg (Body.mk ("") ("peer1")) rfl rfl

/-- C4: when getUser finds no user for the orgId, the handler returns
status 404 with the user not found error body, and neither the api key
lookup, the modular account or smart account client construction, nor
the user operation submission is performed. -/
theorem c4_user_not_found (env : Env) (b : Body)
    (hp : env.parseResult = some b) (hb : (b.orgId == "") = false)
    (hu : env.getUser b.orgId = none) :
    POST env = (Response.mk 404 (RespBody.errBody ("user not found")),
        [Event.getUserEv b.orgId]) ∧
    (∀ o, Event.getApiKeyEv o ∉ (POST env).2) ∧
    (∀ d, Event.createModularAccountEv d ∉ (POST env).2) ∧
    (∀ a p, Event.createSmartAccountClientEv a p ∉ (POST env).2) ∧
    (∀ t d, Event.sendUserOpEv t d ∉ (POST env).2) := by
  have h := POST_eq_afterCheck env b hp hb
  rw [h]
  unfold afterCheck tryBlock
  rw [hu]
  simp

/-- C4 witness: the missing-user environment gets the 404 response and
the single-lookup trace. -/
theorem c4_witness :
    POST envNoUser = (Response.mk 404 (RespBody.errBody ("user not found")),
      [Event.getUserEv ("org1")]) :=
  (c4_user_not_found envNoUser sampleBody rfl rfl rfl).1

/-- C10: the signer built by createSignerForUser carries the user
address unchanged, and each of its signing operations always rejects
with Error Not implemented, so it can never successfully sign. -/
theorem c10_signer_never_signs (user : UserData) (m t d : String) :
    (createSignerForUser user).getAddress = user.address ∧
    (createSignerForUser user).signMessage m
      = Except.error (jsError ("Not implemented")) ∧
    (createSignerForUser user).signTransaction t
      = Except.error (jsError ("Not implemented")) ∧
    (createSignerForUser user).signTypedData d
      = Except.error (jsError ("Not implemented")) ∧
    (∀ r, (createSignerForUser user).signMessage m ≠ Except.ok r) ∧
    (∀ r, (createSignerForUser user).signTransaction t ≠ Except.ok r) ∧
    (∀ r, (createSignerForUser user).signTypedData d ≠ Except.ok r) := by
  refine ⟨rfl, rfl, rfl, rfl, ?_, ?_, ?_⟩ <;>
    · intro r h
      simp [createSignerForUser, toAccount, createWalletClient,
        WalletClientSigner.signMessage, WalletClientSigner.signTransaction,
        WalletClientSigner.signTypedData] at h

/-- C8: the handler response is a deterministic function of the request
body, the environment variables, and the external results: two
environments with identical observations yield identical responses and
traces. -/
theorem c8_deterministic (e1 e2 : Env)
    (h1 : e1.parseResult = e2.parseResult)
    (h2 : ∀ o, e1.getUser o = e2.getUser o)
    (h3 : ∀ o, e1.getLatestApiKey o = e2.getLatestApiKey o)
    (h4 : e1.alchemyApiKey = e2.alchemyApiKey)
    (h5 : e1.paymasterPolicyId = e2.paymasterPolicyId)
    (h6 : e1.smartContractAddress = e2.smartContractAddress)
    (h7 : e1.createModularAccountV2 = e2.createModularAccountV2)
    (h8 : e1.sendUserOperation = e2.sendUserOperation)
    (h9 : ∀ f a, e1.encodeFunctionData f a = e2.encodeFunctionData f a)
    (h10 : ∀ s, e1.safeParse s = e2.safeParse s)
    (h11 : ∀ s, e1.decodeErrorResult s = e2.decodeErrorResult s) :
    POST e1 = POST e2 := by
  have he : e1 = e2 := by
    cases e1
    cases e2
    simp only [Env.mk.injEq]
    exact ⟨h1, funext h2, funext h3, h4, h5, h6, h7, h8,
      funext (fun f => funext (fun a => h9 f a)), funext h10, funext h11⟩
  rw [he]

/-- C8 witness: two syntactically different but observationally equal
environments get the same response. -/
theorem c8_witness : POST envOk = POST envOk2 :=
  c8_deterministic envOk envOk2 rfl (fun _ => rfl) (fun _ => rfl) rfl rfl rfl
    rfl rfl (fun _ _ => rfl) (fun _ => rfl) (fun _ => rfl)

/-- C2: if the try block throws an error whose name is not
HttpRequestError, the handler returns status 500 with the generic
unexpected-error message and the original error attached; the revert
reason decode happens only for errors named HttpRequestError. -/
theorem c2_non_http_error_gives_500 (env : Env) (b : Body) (e : ErrObj)
    (tr : List Event)
    (hp : env.parseResult = some b) (hb : (b.orgId == "") = false)
    (ht : tryBlock env b = (TryOutcome.thrown e, tr)) :
    (e.name ≠ ("HttpRequestError") →
      (POST env).1 = Response.mk 500
        (RespBody.errOriginalBody ("An unexpected error occurred") e)) ∧
    (∀ rd, Event.decodeErrorEv rd ∈ (POST env).2 →
      e.name = ("HttpRequestError")) := by
  have h := POST_eq_afterCheck env b hp hb
  rw [h]
  unfold afterCheck
  rw [ht]
  constructor
  · intro hn
    have hb2 : (e.name != ("HttpRequestError")) = true := by
      simp [bne_iff_ne, hn]
    unfold catchBlock
    simp [hb2]
  · intro rd hmem
    by_contra hne
    have htr : Event.decodeErrorEv rd ∉ tr := by
      have hx := tryBlock_trace_no_decode env b rd
      rw [ht] at hx
      exact hx
    have hb2 : (e.name != ("HttpRequestError")) = true := by
      simp [bne_iff_ne, hne]
    have hc : (catchBlock env e).2 = [] := by
      unfold catchBlock
      simp [hb2]
    simp [hc] at hmem
    exact htr hmem

/-- C2 witness: a thrown TypeError yields the generic 500 response. -/
theorem c2_witness :
    (POST envThrow).1 = Response.mk 500
      (RespBody.errOriginalBody ("An unexpected error occurred") eOther) :=
  (c2_non_http_error_gives_500 envThrow sampleBody eOther
    [Event.getUserEv ("org1"), Event.getApiKeyEv ("org1"),
     Event.alchemyEv ("alchKey"), Event.createWalletClientEv ("0xabc"),
     Event.createModularAccountEv ("0xdigest")]
    rfl rfl rfl).1 (by decide)

/-- C3: if the try block throws an HttpRequestError, then on a details
string the schema accepts the handler returns status 400 with the
decoded error name and the metaMessages, and on a details string the
schema rejects it returns status 500 with the request-details error
message. -/
theorem c3_http_error_detail_parsing (env : Env) (b : Body) (e : ErrObj)
    (tr : List Event)
    (hp : env.parseResult = some b) (hb : (b.orgId == "") = false)
    (ht : tryBlock env b = (TryOutcome.thrown e, tr))
    (hn : e.name = ("HttpRequestError")) :
    (∀ pd, env.safeParse e.details = some pd →
      (POST env).1 = Response.mk 400
        (RespBody.errMetaBody
          ((env.decodeErrorResult pd.revertData).errorName)
          e.metaMessages)) ∧
    (env.safeParse e.details = none →
      (POST env).1 = Response.mk 500
        (RespBody.errParseBody
          ("An unexpected error occurred getting request details")
          e.details)) := by
  have h := POST_eq_afterCheck env b hp hb
  rw [h]
  unfold afterCheck
  rw [ht]
  have hb2 : (e.name != ("HttpRequestError")) = false := by
    simp [hn]
  constructor
  · intro pd hpd
    unfold catchBlock
    simp [hb2, hpd]
  · intro hnone
    unfold catchBlock
    simp [hb2, hnone]

/-- C3 witness: a thrown HttpRequestError with an accepted details
string yields the 400 response carrying the decoded error name. -/
theorem c3_witness :
    (POST envThrowHttp).1 = Response.mk 400
      (RespBody.errMetaBody
        ((envThrowHttp.decodeErrorResult ("0xdead")).errorName)
        eHttp.metaMessages) :=
  (c3_http_error_detail_parsing envThrowHttp sampleBody eHttp
    [Event.getUserEv ("org1"), Event.getApiKeyEv ("org1"),
     Event.alchemyEv ("alchKey"), Event.createWalletClientEv ("0xabc"),
     Event.createModularAccountEv ("0xdigest")]
    rfl rfl rfl rfl).1 (ParsedDetails.mk ("0xdead")) rfl

/-- C6: the handler forwards its identifiers unchanged: the orgId to
getUser and getLatestApiKey, the stored user address to the wallet
client, the stored digest to the modular account constructor, the
peerId as the single argument of the registerPeer encoding, and the
contract address with the encoded calldata to the user operation. -/
theorem c6_passthrough (env : Env) (b : Body) (u : UserData)
    (k : ApiKeyData) (d : String) (acct : Account)
    (hp : env.parseResult = some b) (hb : (b.orgId == "") = false)
    (hu : env.getUser b.orgId = some u)
    (hk : env.getLatestApiKey b.orgId = some k)
    (hd : k.deferredActionDigest = some d) (hd2 : (d == "") = false)
    (hacct : env.createModularAccountV2 = Except.ok acct) :
    Event.getUserEv b.orgId ∈ (POST env).2 ∧
    Event.getApiKeyEv b.orgId ∈ (POST env).2 ∧
    Event.createWalletClientEv u.address ∈ (POST env).2 ∧
    Event.createModularAccountEv d ∈ (POST env).2 ∧
    Event.encodeEv ("registerPeer") [b.peerId] ∈ (POST env).2 ∧
    Event.sendUserOpEv env.smartContractAddress
      (env.encodeFunctionData ("registerPeer") [b.peerId]) ∈ (POST env).2 := by
  have h := POST_eq_afterCheck env b hp hb
  rw [h]
  unfold afterCheck tryBlock sdkSteps
  cases hsend : env.sendUserOperation <;>
    simp [hu, hk, hd, hacct, hd2, hsend]

/-- C6 witness: on the all-success environment every identifier appears
verbatim in the trace. -/
theorem c6_witness :
    Event.getUserEv ("org1") ∈ (POST envOk).2 ∧
    Event.getApiKeyEv ("org1") ∈ (POST envOk).2 ∧
    Event.createWalletClientEv ("0xabc") ∈ (POST envOk).2 ∧
    Event.createModularAccountEv ("0xdigest") ∈ (POST envOk).2 ∧
    Event.encodeEv ("registerPeer") [("peer1")] ∈ (POST envOk).2 ∧
    Event.sendUserOpEv ("0xcontract")
      (envOk.encodeFunctionData ("registerPeer") [("peer1")])
      ∈ (POST envOk).2 :=
  c6_passthrough envOk sampleBody sampleUser sampleKey ("0xdigest")
    (Account.mk ("0xacct")) rfl rfl rfl rfl rfl rfl rfl

/-- C7: on the success path the handler performs its external calls in
the fixed linear order getUser, getLatestApiKey, create transport,
create wallet client, create modular account, create smart account
client, encode calldata, send user operation, and no revert-reason
decode happens. -/
theorem c7_linear_order (env : Env) (b : Body) (u : UserData)
    (k : ApiKeyData) (d : String) (acct : Account) (h : String)
    (hp : env.parseResult = some b) (hb : (b.orgId == "") = false)
    (hu : env.getUser b.orgId = some u)
    (hk : env.getLatestApiKey b.orgId = some k)
    (hd : k.deferredActionDigest = some d) (hd2 : (d == "") = false)
    (hacct : env.createModularAccountV2 = Except.ok acct)
    (hsend : env.sendUserOperation = Except.ok h) :
    POST env = (Response.mk 200 (RespBody.hashBody h),
      [Event.getUserEv b.orgId, Event.getApiKeyEv b.orgId,
       Event.alchemyEv env.alchemyApiKey,
       Event.createWalletClientEv u.address,
       Event.createModularAccountEv d,
       Event.createSmartAccountClientEv acct.address env.paymasterPolicyId,
       Event.encodeEv ("registerPeer") [b.peerId],
       Event.sendUserOpEv env.smartContractAddress
         (env.encodeFunctionData ("registerPeer") [b.peerId])]) ∧
    (∀ rd, Event.decodeErrorEv rd ∉ (POST env).2) := by
  have hpost := POST_eq_afterCheck env b hp hb
  constructor
  · rw [hpost]
    unfold afterCheck tryBlock sdkSteps
    simp [hu, hk, hd, hacct, hsend, hd2]
  · intro rd
    rw [hpost]
    unfold afterCheck tryBlock sdkSteps
    simp [hu, hk, hd, hacct, hsend, hd2]

/-- C7 witness: on the all-success environment the handler returns the
hash with status 200 and the trace is exactly the ordered call list. -/
theorem c7_witness :
    POST envOk = (Response.mk 200 (RespBody.hashBody ("0xhash")),
      [Event.getUserEv ("org1"), Event.getApiKeyEv ("org1"),
       Event.alchemyEv ("alchKey"), Event.createWalletClientEv ("0xabc"),
       Event.createModularAccountEv ("0xdigest"),
       Event.createSmartAccountClientEv ("0xacct") ("policy1"),
       Event.encodeEv ("registerPeer") [("peer1")],
       Event.sendUserOpEv ("0xcontract")
         (envOk.encodeFunctionData ("registerPeer") [("peer1")])]) :=
  (c7_linear_order envOk sampleBody sampleUser sampleKey ("0xdigest")
    (Account.mk ("0xacct")) ("0xhash") rfl rfl rfl rfl rfl rfl rfl rfl).1

/-- Every response that the try block produces without throwing is the
404 user not found, the 500 api key not found, or a 200 carrying a
hash. -/
theorem tryBlock_resp_shape (env : Env) (b : Body) (r : Response)
    (tr : List Event) (heq : tryBlock env b = (TryOutcome.resp r, tr)) :
    r = Response.mk 404 (RespBody.errBody ("user not found")) ∨
    r = Response.mk 500 (RespBody.errBody ("api key not found")) ∨
    ∃ h, r = Response.mk 200 (RespBody.hashBody h) := by
  unfold tryBlock sdkSteps at heq
  repeat' split at heq
  all_goals (try simp_all)
  all_goals (obtain ⟨h1, h2⟩ := heq; exact Or.inr (Or.inr ⟨_, h1.symm⟩))

/-- Every response of the catch block has status 400 or 500 and a body
carrying an error field. -/
theorem catchBlock_status (env : Env) (e : ErrObj) :
    ((catchBlock env e).1.status = 400 ∨ (catchBlock env e).1.status = 500) ∧
    (catchBlock env e).1.body.hasErrorField = true := by
  unfold catchBlock
  repeat' split
  all_goals simp [RespBody.hasErrorField]

/-- C1: every response of the handler is either a 200 whose body is
exactly the hash field, or a response with status 400, 404 or 500 whose
body carries an error field; no other status is ever produced. -/
theorem c1_status_codes (env : Env) :
    ((POST env).1.status = 200 ∧
      ∃ h, (POST env).1.body = RespBody.hashBody h) ∨
    (((POST env).1.status = 400 ∨ (POST env).1.status = 404 ∨
        (POST env).1.status = 500) ∧
      (POST env).1.body.hasErrorField = true) := by
  by_cases hpr : ∃ b, env.parseResult = some b
  · obtain ⟨b, hpr⟩ := hpr
    by_cases hb : (b.orgId == "") = true
    · unfold POST parseBodyVar
      simp [hpr, hb, RespBody.hasErrorField]
    · have hb2 : (b.orgId == "") = false := by
        simp only [Bool.not_eq_true] at hb
        exact hb
      rw [POST_eq_afterCheck env b hpr hb2]
      unfold afterCheck
      cases htb : tryBlock env b with
      | mk o tr =>
        cases o with
        | resp r =>
          have hshape := tryBlock_resp_shape env b r tr htb
          rcases hshape with h1 | h1 | ⟨hh, h1⟩ <;>
            simp [h1, RespBody.hasErrorField]
        | thrown e =>
          obtain ⟨hst, hbody⟩ := catchBlock_status env e
          rcases hst with h1 | h1 <;> simp [h1, hbody]
  · have hpr2 : env.parseResult = none := by
      cases hh : env.parseResult with
      | none => rfl
      | some b => exact absurd ⟨b, hh⟩ hpr
    unfold POST parseBodyVar
    simp [hpr2, RespBody.hasErrorField]

end Gensyn
